import Mathlib

/-!
Verification development for the exury-backend order-creation and
identity-resolution workflow.  Shallow embedding of:
  - src/repositories/user.repository.ts (anonymous identity resolver),
  - the order-number retrofit migration SQL (order_number_seq),
  - src/controllers/order.controller.ts (OrderController),
  - the error middleware of src/server.ts.
Collaborators whose source is not in the repository snapshot
(order.repository.ts, pricing.service.ts, types.ts) are modelled from the
spec and marked as such.
-/

deriving instance DecidableEq for Except

namespace Exury

/-! ### users table and the anonymous-identity resolver -/

/-- The users table restricted to the sentinel anonymous email
(ANONYMOUS_EMAIL): `anonRow` is the id of the row with that email when one
exists (at most one, by the unique constraint on email); `nextId` models
the fresh-id source `gen_random_uuid()`. -/
structure UsersTable where
  anonRow : Option Nat
  nextId : Nat
  deriving DecidableEq, Repr

/-- The single SQL statement of getOrCreateAnonymousUserId:
INSERT INTO users ... ON CONFLICT (email) DO NOTHING RETURNING id,
UNION ALL with SELECT id FROM users WHERE email matches, LIMIT 1 -- one
atomic statement against the table.  Returns the resolved id, the updated
table, and whether a row was inserted. -/
def anonUpsertQuery (t : UsersTable) : Nat × UsersTable × Bool :=
  match t.anonRow with
  | some i => (i, t, false)
  | none => (t.nextId, ⟨some t.nextId, t.nextId + 1⟩, true)

/-- Per-process module state of user.repository.ts: the single mutable
variable cachedAnonymousUserId. -/
structure ProcState where
  cachedAnonymousUserId : Option Nat
  deriving DecidableEq, Repr

/-- Outcome of issuing the upsert-or-read statement: the query runs
normally, the pool.query promise rejects, or the statement yields zero
rows (the defensive branch at user.repository.ts line 35). -/
inductive QueryOutcome
  | ok
  | throws
  | zeroRows
  deriving DecidableEq, Repr

/-- Result of one call to getOrCreateAnonymousUserId: the returned or
thrown value, the process cache afterwards, the users table afterwards,
whether a database round-trip was issued, and whether a row was
inserted. -/
structure AnonResult where
  result : Except String Nat
  proc : ProcState
  table : UsersTable
  dbRoundTrip : Bool
  insertedRow : Bool
  deriving DecidableEq, Repr

/-- getOrCreateAnonymousUserId (user.repository.ts lines 16-46): return the
cached id when set; otherwise issue the atomic upsert-or-read statement,
throw on a rejected query or on zero rows (both caught, logged and
rethrown without touching the cache), and assign the cache only after a
successful resolution. -/
def getOrCreateAnonymousUserId (p : ProcState) (t : UsersTable)
    (oc : QueryOutcome) : AnonResult :=
  match p.cachedAnonymousUserId with
  | some i => ⟨Except.ok i, p, t, false, false⟩
  | none =>
    match oc with
    | QueryOutcome.throws => ⟨Except.error "query failed", p, t, true, false⟩
    | QueryOutcome.zeroRows =>
        ⟨Except.error "Failed to get or create anonymous user", p, t, true, false⟩
    | QueryOutcome.ok =>
        let q := anonUpsertQuery t
        ⟨Except.ok q.1, ⟨some q.1⟩, q.2.1, true, q.2.2⟩

/-- Aggregate outcome of a run of resolver calls. -/
structure RunResult where
  results : List (Except String Nat)
  proc : ProcState
  table : UsersTable
  roundTrips : Nat
  inserts : Nat
  deriving DecidableEq, Repr

/-- N sequential calls to getOrCreateAnonymousUserId within one process,
each query succeeding, threading the cache and the table. -/
def callAnonN : Nat → ProcState → UsersTable → RunResult
  | 0, p, t => ⟨[], p, t, 0, 0⟩
  | n + 1, p, t =>
    let r := getOrCreateAnonymousUserId p t QueryOutcome.ok
    let rest := callAnonN n r.proc r.table
    ⟨r.result :: rest.results, rest.proc, rest.table,
      (if r.dbRoundTrip then 1 else 0) + rest.roundTrips,
      (if r.insertedRow then 1 else 0) + rest.inserts⟩

/-- N concurrent first-time callers, each in its own process with an empty
cache, sharing the users table.  Each caller touches the shared table in
exactly one atomic statement, so every interleaving is equivalent to some
serial order of those statements; this function runs that serial order. -/
def concurrentFirstCalls : Nat → UsersTable → RunResult
  | 0, t => ⟨[], ⟨none⟩, t, 0, 0⟩
  | n + 1, t =>
    let r := getOrCreateAnonymousUserId ⟨none⟩ t QueryOutcome.ok
    let rest := concurrentFirstCalls n r.table
    ⟨r.result :: rest.results, rest.proc, rest.table,
      (if r.dbRoundTrip then 1 else 0) + rest.roundTrips,
      (if r.insertedRow then 1 else 0) + rest.inserts⟩

/-! ### order_number_seq (retrofit migration SQL appended to
user.repository.ts, lines 48-62) -/

/-- State of the Postgres sequence order_number_seq: `next` is the value
the next nextval call returns.  nextval is atomic and non-transactional:
its advance survives a rollback of the enclosing transaction. -/
structure SeqState where
  next : Nat
  deriving DecidableEq, Repr

/-- nextval: return the current value and advance the sequence. -/
def nextval (s : SeqState) : Nat × SeqState :=
  (s.next, ⟨s.next + 1⟩)

/-- Fate of one order-creation attempt: the inserting transaction commits,
or it rolls back (the inserted row is discarded but the sequence advance
persists). -/
inductive Attempt
  | commit
  | rollback
  deriving DecidableEq, Repr

/-- A serialized run of order-creation attempts against the shared
sequence.  Each attempt draws nextval for the order_number column default;
the numbers of the committed attempts, in creation order, are returned
together with the final sequence state.  Because nextval is atomic in the
database, any concurrent interleaving (across connections and process
instances) is equivalent to some such serialized run. -/
def runCreations : SeqState → List Attempt → List Nat × SeqState
  | s, [] => ([], s)
  | s, a :: as =>
    let v := nextval s
    let rest := runCreations v.2 as
    (match a with
      | Attempt.commit => v.1 :: rest.1
      | Attempt.rollback => rest.1, rest.2)

/-! ### the retrofit migration itself -/

/-- One row of the orders table as the migration sees it: an id and the
order_number column value, nullable while the column is being
retrofitted. -/
structure MigRow where
  rowId : Nat
  orderNumber : Option Nat
  deriving DecidableEq, Repr

/-- Schema-plus-data state the migration manipulates. -/
structure MigStore where
  rows : List MigRow
  seq : Option SeqState
  hasColumn : Bool
  notNull : Bool
  uniqueIdx : Bool
  defaultIsSeq : Bool
  deriving DecidableEq, Repr

/-- The statements of the migration script, in source order. -/
inductive MigStep
  | createSeq
  | addColumn
  | backfill
  | setNotNull
  | createUniqueIndex
  | setDefaultSeq
  deriving DecidableEq, Repr

/-- Assign nextval to every row whose order_number is NULL (the backfill
UPDATE with the numbered CTE). -/
def backfillRows : List MigRow → SeqState → List MigRow × SeqState
  | [], s => ([], s)
  | r :: rs, s =>
    match r.orderNumber with
    | some n =>
      let rest := backfillRows rs s
      (⟨r.rowId, some n⟩ :: rest.1, rest.2)
    | none =>
      let v := nextval s
      let rest := backfillRows rs v.2
      (⟨r.rowId, some v.1⟩ :: rest.1, rest.2)

/-- Effect of one migration statement on the store. -/
def runMigStep (st : MigStore) : MigStep → MigStore
  | MigStep.createSeq =>
    -- CREATE SEQUENCE IF NOT EXISTS order_number_seq (starts at 1)
    match st.seq with
    | some _ => st
    | none => { st with seq := some ⟨1⟩ }
  | MigStep.addColumn =>
    -- ALTER TABLE orders ADD COLUMN IF NOT EXISTS order_number INTEGER
    { st with hasColumn := true }
  | MigStep.backfill =>
    match st.seq with
    | none => st
    | some s =>
      let b := backfillRows st.rows s
      { st with rows := b.1, seq := some b.2 }
  | MigStep.setNotNull => { st with notNull := true }
  | MigStep.createUniqueIndex => { st with uniqueIdx := true }
  | MigStep.setDefaultSeq => { st with defaultIsSeq := true }

/-- The migration script: its statements in the order they appear in the
source. -/
def migrationSteps : List MigStep :=
  [MigStep.createSeq, MigStep.addColumn, MigStep.backfill,
   MigStep.setNotNull, MigStep.createUniqueIndex, MigStep.setDefaultSeq]

/-- Run the whole migration on a store. -/
def runMigration (st : MigStore) : MigStore :=
  migrationSteps.foldl runMigStep st

/-- A pre-migration store: some existing order rows (ids `ids`), no
numbering column, no sequence, no default. -/
def preMigrationStore (ids : List Nat) : MigStore :=
  ⟨ids.map (fun i => ⟨i, none⟩), none, false, false, false, false⟩

/-! ### order store, pricing collaborator, and the order controller -/

/-- Modelled from the spec: src/types is not among the source files.
Section 4.3 names QUOTE_LOCKED as the initial status; downstream states
are owned by the external payment/webhook subsystem. -/
inductive OrderStatus
  | QUOTE_LOCKED
  | downstream (k : Nat)
  deriving DecidableEq, Repr

/-- Modelled from the spec: the Quote shape consumed from the pricing
service, section 6: base, asset, amount, cryptoAmount, exchangeRate,
fee. -/
structure Quote where
  base : String
  asset : String
  amount : Int
  cryptoAmount : Int
  exchangeRate : Int
  fee : Int
  deriving DecidableEq, Repr

/-- Modelled from the spec: src/services/pricing/pricing.service.ts is not
among the source files.  Section 6 gives its interface:
validateQuote(quoteId) -> boolean and getQuote(quoteId) -> Quote or
absent.  A read-only external collaborator. -/
structure PricingService where
  validateQuote : String → Bool
  getQuote : String → Option Quote

/-- An order row, with the fields the controller constructs at
order.controller.ts lines 48-60 plus the store-assigned orderNumber and
the data-model bookkeeping columns. -/
structure Order where
  id : Nat
  userId : Nat
  quoteId : String
  type : String
  base : String
  asset : String
  fiatAmount : Int
  cryptoAmount : Int
  exchangeRate : Int
  fee : Int
  status : OrderStatus
  orderNumber : Nat
  paymentId : Option Nat
  createdAt : Nat
  updatedAt : Nat
  deriving DecidableEq, Repr

/-- The argument object of orderRepository.create, exactly the object
literal at order.controller.ts lines 48-60. -/
structure CreateOrderFields where
  id : Nat
  userId : Nat
  quoteId : String
  type : String
  base : String
  asset : String
  fiatAmount : Int
  cryptoAmount : Int
  exchangeRate : Int
  fee : Int
  status : OrderStatus
  deriving DecidableEq, Repr

/-- The durable orders store: committed rows plus the shared
order_number_seq state. -/
structure OrderRepo where
  rows : List Order
  seq : SeqState
  deriving Repr

/-- Modelled from the spec: src/repositories/order.repository.ts is not
among the source files.  Section 4.2: createOrder(fields) assigns the next
value of the shared monotonic counter as orderNumber and inserts the full
order row; the insert is a single atomic statement.  Because the
controller never hands its checked-out client to the repository, this
statement runs on the separate pool connection of the repository and
autocommits
there. -/
def OrderRepo.create (db : OrderRepo) (f : CreateOrderFields) (now : Nat) :
    Order × OrderRepo :=
  let v := nextval db.seq
  let o : Order :=
    ⟨f.id, f.userId, f.quoteId, f.type, f.base, f.asset, f.fiatAmount,
      f.cryptoAmount, f.exchangeRate, f.fee, f.status, v.1, none, now, now⟩
  (o, ⟨o :: db.rows, v.2⟩)

/-- Modelled from the spec: section 4.2 read contract
findById(id) -> Order or absent. -/
def OrderRepo.findById (db : OrderRepo) (id : Nat) : Option Order :=
  db.rows.find? (fun o => o.id == id)

/-- Modelled from the spec: section 4.2 read contract
findByUserId(id) -> ordered sequence of Order. -/
def OrderRepo.findByUserId (db : OrderRepo) (uid : Nat) : List Order :=
  db.rows.filter (fun o => o.userId == uid)

/-- A structured error body as the controller and middleware emit it:
res.json of an object with an `error` string and possibly a `message`
string; no stack trace field exists in any of these literals. -/
structure ErrorBody where
  error : String
  message : Option String
  deriving DecidableEq, Repr

/-- An HTTP response: a success with a typed body, or an error status with
a structured error body. -/
inductive HttpResult (α : Type)
  | ok (status : Nat) (body : α)
  | err (status : Nat) (body : ErrorBody)
  deriving DecidableEq, Repr

/-- Success body of POST /v1/orders (order.controller.ts lines 65-71). -/
structure CreateOrderBody where
  id : Nat
  order_id : Nat
  order_number : Nat
  reference : String
  status : OrderStatus
  deriving DecidableEq, Repr

/-- Success body of GET /v1/orders/:id (order.controller.ts
lines 105-124). -/
structure GetOrderBody where
  id : Nat
  order_id : Nat
  order_number : Nat
  quote_id : String
  type : String
  base : String
  asset : String
  fiat_amount : Int
  amount : Int
  crypto_amount : Int
  exchange_rate : Int
  fee : Int
  status : OrderStatus
  reference : String
  iban : Option Nat
  payment_id : Option Nat
  created_at : Nat
  updated_at : Nat
  deriving DecidableEq, Repr

/-- Backend state visible to one request: the users table, the resolver
cache of this process, the pricing collaborator, and the orders store. `now`
models the clock used for the timestamp columns. -/
structure Env where
  users : UsersTable
  proc : ProcState
  pricing : PricingService
  orders : OrderRepo
  now : Nat

/-- A POST /v1/orders request: the optional quote_id of the body, the
optional authenticated user attached to the request, and the value the
uuidv4() call will produce for the new order id. -/
structure CreateReq where
  quote_id : Option String
  authUserId : Option Nat
  freshOrderId : Nat
  deriving DecidableEq, Repr

/-- Failure injection for the awaited steps of createOrder: the outcome of
the anonymous-resolver query, and whether BEGIN, the store insert, or
COMMIT rejects (with the raised error message).  `none` means the step
succeeds. -/
structure CreateFailures where
  anonOutcome : QueryOutcome
  beginFails : Option String
  createFails : Option String
  commitFails : Option String
  deriving DecidableEq, Repr

/-- OrderController.createOrder (order.controller.ts lines 20-82),
step for step in source order:
check out a client; resolve userId from req.user or the anonymous
resolver BEFORE validating the body; return 400 when quote_id is absent;
410 when validateQuote is false; 404 when getQuote is absent; then BEGIN
on the checked-out client, orderRepository.create on the separate
pool connection (autocommitted there -- the client is never passed to the
repository), COMMIT on the client, and the 201 body.  Any rejection lands
in the catch block: ROLLBACK on the client (which never holds the store
write) and a 500 body carrying the raw error message.  A failed insert
still consumes the drawn sequence value (nextval is non-transactional). -/
def createOrder (env : Env) (req : CreateReq) (f : CreateFailures) :
    HttpResult CreateOrderBody × Env :=
  -- const userId = (req as any).user?.id || (await getOrCreateAnonymousUserId())
  let resolved : Except String (Nat × Env) :=
    match req.authUserId with
    | some uid => Except.ok (uid, env)
    | none =>
      let r := getOrCreateAnonymousUserId env.proc env.users f.anonOutcome
      match r.result with
      | Except.error m => Except.error m
      | Except.ok uid =>
          Except.ok (uid, { env with proc := r.proc, users := r.table })
  match resolved with
  | Except.error m =>
      -- thrown before BEGIN: catch runs ROLLBACK on an idle client, 500
      (HttpResult.err 500 ⟨"Failed to create order", some m⟩, env)
  | Except.ok (userId, env1) =>
    match req.quote_id with
    | none => (HttpResult.err 400 ⟨"quote_id is required", none⟩, env1)
    | some qid =>
      if !(env1.pricing.validateQuote qid) then
        (HttpResult.err 410 ⟨"Quote has expired or is invalid", none⟩, env1)
      else
        match env1.pricing.getQuote qid with
        | none => (HttpResult.err 404 ⟨"Quote not found", none⟩, env1)
        | some quote =>
          match f.beginFails with
          | some m => (HttpResult.err 500 ⟨"Failed to create order", some m⟩, env1)
          | none =>
            match f.createFails with
            | some m =>
              -- the failed insert consumed its nextval; no row committed
              (HttpResult.err 500 ⟨"Failed to create order", some m⟩,
                { env1 with
                    orders := ⟨env1.orders.rows, ⟨env1.orders.seq.next + 1⟩⟩ })
            | none =>
              let created := env1.orders.create
                ⟨req.freshOrderId, userId, qid, "buy", quote.base,
                  quote.asset, quote.amount, quote.cryptoAmount,
                  quote.exchangeRate, quote.fee, OrderStatus.QUOTE_LOCKED⟩
                env1.now
              let env2 := { env1 with orders := created.2 }
              match f.commitFails with
              | some m =>
                -- COMMIT on the client rejects; ROLLBACK on the client
                -- cannot undo the autocommitted store write
                (HttpResult.err 500 ⟨"Failed to create order", some m⟩, env2)
              | none =>
                (HttpResult.ok 201
                  ⟨req.freshOrderId, req.freshOrderId,
                    created.1.orderNumber, toString created.1.orderNumber,
                    OrderStatus.QUOTE_LOCKED⟩, env2)

/-- A GET /v1/orders/:id request. -/
structure GetReq where
  orderId : Nat
  authUserId : Option Nat
  deriving DecidableEq, Repr

/-- Failure injection for getOrder / getUserOrders: the outcome of the
anonymous-resolver query and whether the repository read rejects. -/
structure ReadFailures where
  anonOutcome : QueryOutcome
  findFails : Option String
  deriving DecidableEq, Repr

/-- OrderController.getOrder (order.controller.ts lines 88-132): resolve
the caller identity (authenticated id, else anonymous resolution), fetch
the order by id, 404 when absent, 403 when order.userId differs from the
resolved identity, else the full projection.  Any rejection yields a 500
body carrying the raw error message. -/
def getOrder (env : Env) (req : GetReq) (f : ReadFailures) :
    HttpResult GetOrderBody × Env :=
  let resolved : Except String (Nat × Env) :=
    match req.authUserId with
    | some uid => Except.ok (uid, env)
    | none =>
      let r := getOrCreateAnonymousUserId env.proc env.users f.anonOutcome
      match r.result with
      | Except.error m => Except.error m
      | Except.ok uid =>
          Except.ok (uid, { env with proc := r.proc, users := r.table })
  match resolved with
  | Except.error m =>
      (HttpResult.err 500 ⟨"Failed to get order", some m⟩, env)
  | Except.ok (userId, env1) =>
    match f.findFails with
    | some m => (HttpResult.err 500 ⟨"Failed to get order", some m⟩, env1)
    | none =>
      match env1.orders.findById req.orderId with
      | none => (HttpResult.err 404 ⟨"Order not found", none⟩, env1)
      | some order =>
        if order.userId ≠ userId then
          (HttpResult.err 403 ⟨"Access denied", none⟩, env1)
        else
          (HttpResult.ok 200
            ⟨order.id, order.id, order.orderNumber, order.quoteId,
              order.type, order.base, order.asset, order.fiatAmount,
              order.fiatAmount, order.cryptoAmount, order.exchangeRate,
              order.fee, order.status, toString order.orderNumber, none,
              order.paymentId, order.createdAt, order.updatedAt⟩, env1)

/-- OrderController.getUserOrders (order.controller.ts lines 138-153):
resolve the caller identity and return the orders owned by it; any
rejection yields a 500 body carrying the raw error message. -/
def getUserOrders (env : Env) (req : Option Nat) (f : ReadFailures) :
    HttpResult (List Order) × Env :=
  let resolved : Except String (Nat × Env) :=
    match req with
    | some uid => Except.ok (uid, env)
    | none =>
      let r := getOrCreateAnonymousUserId env.proc env.users f.anonOutcome
      match r.result with
      | Except.error m => Except.error m
      | Except.ok uid =>
          Except.ok (uid, { env with proc := r.proc, users := r.table })
  match resolved with
  | Except.error m =>
      (HttpResult.err 500 ⟨"Failed to get orders", some m⟩, env)
  | Except.ok (userId, env1) =>
    match f.findFails with
    | some m => (HttpResult.err 500 ⟨"Failed to get orders", some m⟩, env1)
    | none => (HttpResult.ok 200 (env1.orders.findByUserId userId), env1)

/-- The error-handling middleware of src/server.ts lines 86-97: a 500 body
whose message is the raw error message only when NODE_ENV is
`development`, and absent otherwise. -/
def errorMiddleware (devMode : Bool) (errMessage : String) :
    Nat × ErrorBody :=
  (500, ⟨"Internal server error", if devMode then some errMessage else none⟩)

/-- The fixed literal `error` strings of every res.json error body in
order.controller.ts and server.ts: none of them interpolates collaborator
or storage data. -/
def safeErrorStrings : List String :=
  ["quote_id is required", "Quote has expired or is invalid",
   "Quote not found", "Failed to create order", "Order not found",
   "Access denied", "Failed to get order", "Failed to get orders",
   "Internal server error", "Not found"]

/-- The id a successful run of the resolver yields for a given cache and
table: the cached id when set, else the id produced by the atomic
upsert-or-read statement. -/
def anonIdOf (p : ProcState) (t : UsersTable) : Nat :=
  match p.cachedAnonymousUserId with
  | some i => i
  | none => (anonUpsertQuery t).1

/-- The value of the identity-resolution expression shared by the three
controller handlers -- user id when attached to the request, else the
anonymous resolver -- in an execution whose resolver query succeeds. -/
def resolveIdentityOk (env : Env) (auth : Option Nat) : Nat :=
  match auth with
  | some uid => uid
  | none => anonIdOf env.proc env.users

/-- Fixture: a pricing collaborator with every quote expired and
removed. -/
def emptyPricing : PricingService :=
  ⟨fun _ => false, fun _ => none⟩

/-- Fixture: the EUR-to-BTC quote of the spec scenario. -/
def quoteEUR : Quote :=
  ⟨"EUR", "BTC", 100, 2, 50000, 1⟩

/-- Fixture: a pricing collaborator holding the single valid quote q1. -/
def pricingWithQ1 : PricingService :=
  ⟨fun q => q == "q1", fun q => if q == "q1" then some quoteEUR else none⟩

/-- Fixture: an order row owned by user 1. -/
def sampleOrder : Order :=
  ⟨42, 1, "q", "buy", "EUR", "BTC", 100, 2, 50000, 1,
    OrderStatus.QUOTE_LOCKED, 1, none, 0, 0⟩

/-! ### helper lemmas: the anonymous resolver -/

/-- A cache hit returns the cached id with no database activity. -/
theorem getOrCreate_cached (x : Nat) (t : UsersTable) (oc : QueryOutcome) :
    getOrCreateAnonymousUserId ⟨some x⟩ t oc =
      ⟨Except.ok x, ⟨some x⟩, t, false, false⟩ := rfl

/-- Runs that start with a warm cache return the cached id every time and
touch the database never. -/
theorem callAnonN_cached (n : Nat) (x : Nat) (t : UsersTable) :
    callAnonN n ⟨some x⟩ t =
      ⟨List.replicate n (Except.ok x), ⟨some x⟩, t, 0, 0⟩ := by
  induction n with
  | zero => rfl
  | succ m ih => simp [callAnonN, getOrCreate_cached, ih, List.replicate_succ]

/-- Concurrent first calls against a table that already holds the
anonymous row all read back that row and insert nothing. -/
theorem concurrentFirstCalls_present (n : Nat) (t : UsersTable) (x : Nat)
    (h : t.anonRow = some x) :
    concurrentFirstCalls n t =
      ⟨List.replicate n (Except.ok x), ⟨none⟩, t, n, 0⟩ := by
  induction n with
  | zero => simp [concurrentFirstCalls]
  | succ m ih =>
    simp [concurrentFirstCalls, getOrCreateAnonymousUserId, anonUpsertQuery,
      h, ih, List.replicate_succ, Nat.add_comm]

/-- Claim C2: when no anonymous identity row exists yet, any number N of
concurrent first-time invocations of getOrCreateAnonymousUserId (N at
least 2, each process cache empty, every interleaving serialized through
the atomic upsert-or-read statement) creates exactly one identity row
keyed on the sentinel email, and every caller receives the same identity
id. -/
theorem anonymous_concurrent_first_calls_one_row
    (n : Nat) (t : UsersTable) (hn : 2 ≤ n) (h0 : t.anonRow = none) :
    (concurrentFirstCalls n t).inserts = 1 ∧
    (concurrentFirstCalls n t).table.anonRow = some t.nextId ∧
    (concurrentFirstCalls n t).results =
      List.replicate n (Except.ok t.nextId) := by
  obtain ⟨m, rfl⟩ : ∃ m, n = m + 1 :=
    ⟨n - 1, (Nat.succ_pred_eq_of_pos (Nat.lt_of_lt_of_le Nat.zero_lt_two hn)).symm⟩
  have hfirst : getOrCreateAnonymousUserId ⟨none⟩ t QueryOutcome.ok =
      ⟨Except.ok t.nextId, ⟨some t.nextId⟩, ⟨some t.nextId, t.nextId + 1⟩,
        true, true⟩ := by
    simp [getOrCreateAnonymousUserId, anonUpsertQuery, h0]
  have hrest := concurrentFirstCalls_present m
    (⟨some t.nextId, t.nextId + 1⟩ : UsersTable) t.nextId rfl
  simp [concurrentFirstCalls, hfirst, hrest, List.replicate_succ]

/-- Closed witness for anonymous_concurrent_first_calls_one_row at N = 2
over an empty users table. -/
theorem anonymous_concurrent_first_calls_one_row_witness :
    (concurrentFirstCalls 2 ⟨none, 5⟩).inserts = 1 ∧
    (concurrentFirstCalls 2 ⟨none, 5⟩).table.anonRow = some 5 ∧
    (concurrentFirstCalls 2 ⟨none, 5⟩).results =
      List.replicate 2 (Except.ok 5) :=
  anonymous_concurrent_first_calls_one_row 2 ⟨none, 5⟩ (by decide) rfl

/-- Claim C6: N calls (N at least 1) to getOrCreateAnonymousUserId within one
process, starting from a cold cache, return the identical identity id
every time, issue exactly one database round-trip (the first call; none
after the first success), and perform at most one database write. -/
theorem anonymous_resolution_idempotent_single_write
    (n : Nat) (t : UsersTable) (h : 1 ≤ n) :
    ∃ x, (callAnonN n ⟨none⟩ t).results = List.replicate n (Except.ok x) ∧
      (callAnonN n ⟨none⟩ t).roundTrips = 1 ∧
      (callAnonN n ⟨none⟩ t).inserts ≤ 1 := by
  obtain ⟨m, rfl⟩ : ∃ m, n = m + 1 :=
    ⟨n - 1, (Nat.succ_pred_eq_of_pos h).symm⟩
  cases ht : t.anonRow with
  | some i =>
    refine ⟨i, ?_⟩
    simp [callAnonN, getOrCreateAnonymousUserId, anonUpsertQuery, ht,
      callAnonN_cached, List.replicate_succ]
  | none =>
    refine ⟨t.nextId, ?_⟩
    simp [callAnonN, getOrCreateAnonymousUserId, anonUpsertQuery, ht,
      callAnonN_cached, List.replicate_succ]

/-- Closed witness for anonymous_resolution_idempotent_single_write at
N = 3 over an empty users table. -/
theorem anonymous_resolution_idempotent_single_write_witness :
    ∃ x, (callAnonN 3 ⟨none⟩ ⟨none, 7⟩).results =
        List.replicate 3 (Except.ok x) ∧
      (callAnonN 3 ⟨none⟩ ⟨none, 7⟩).roundTrips = 1 ∧
      (callAnonN 3 ⟨none⟩ ⟨none, 7⟩).inserts ≤ 1 :=
  anonymous_resolution_idempotent_single_write 3 ⟨none, 7⟩ (by decide)

/-- Claim C10: a failing execution of getOrCreateAnonymousUserId (the query
rejects or yields zero rows) rethrows the error, leaves the cache exactly
as it was (still unset), inserts no row, and a subsequent call performs
the database operation again. -/
theorem anonymous_resolution_failure_leaves_cache
    (p : ProcState) (t : UsersTable) (oc oc2 : QueryOutcome)
    (hfail : oc ≠ QueryOutcome.ok) (hc : p.cachedAnonymousUserId = none) :
    (∃ m, (getOrCreateAnonymousUserId p t oc).result = Except.error m) ∧
    (getOrCreateAnonymousUserId p t oc).proc = p ∧
    (getOrCreateAnonymousUserId p t oc).table = t ∧
    (getOrCreateAnonymousUserId p t oc).insertedRow = false ∧
    (getOrCreateAnonymousUserId (getOrCreateAnonymousUserId p t oc).proc
      (getOrCreateAnonymousUserId p t oc).table oc2).dbRoundTrip = true := by
  obtain ⟨c⟩ := p
  cases hc
  cases oc with
  | ok => exact absurd rfl hfail
  | throws =>
    refine ⟨⟨"query failed", rfl⟩, rfl, rfl, rfl, ?_⟩
    cases oc2 <;> rfl
  | zeroRows =>
    refine ⟨⟨"Failed to get or create anonymous user", rfl⟩, rfl, rfl, rfl, ?_⟩
    cases oc2 <;> rfl

/-- Closed witness for anonymous_resolution_failure_leaves_cache: a
rejected query with a cold cache, retried with a succeeding query. -/
theorem anonymous_resolution_failure_leaves_cache_witness :
    (∃ m, (getOrCreateAnonymousUserId ⟨none⟩ ⟨none, 0⟩
        QueryOutcome.throws).result = Except.error m) ∧
    (getOrCreateAnonymousUserId ⟨none⟩ ⟨none, 0⟩
        QueryOutcome.throws).proc = ⟨none⟩ ∧
    (getOrCreateAnonymousUserId ⟨none⟩ ⟨none, 0⟩
        QueryOutcome.throws).table = ⟨none, 0⟩ ∧
    (getOrCreateAnonymousUserId ⟨none⟩ ⟨none, 0⟩
        QueryOutcome.throws).insertedRow = false ∧
    (getOrCreateAnonymousUserId
      (getOrCreateAnonymousUserId ⟨none⟩ ⟨none, 0⟩ QueryOutcome.throws).proc
      (getOrCreateAnonymousUserId ⟨none⟩ ⟨none, 0⟩ QueryOutcome.throws).table
      QueryOutcome.ok).dbRoundTrip = true :=
  anonymous_resolution_failure_leaves_cache ⟨none⟩ ⟨none, 0⟩
    QueryOutcome.throws QueryOutcome.ok (by decide) rfl

/-! ### helper lemmas: the order-number sequence -/

/-- A run of attempts advances the sequence by exactly its length,
whether the attempts commit or roll back. -/
theorem runCreations_seq (as : List Attempt) (s : SeqState) :
    (runCreations s as).2 = ⟨s.next + as.length⟩ := by
  induction as generalizing s with
  | nil => simp [runCreations]
  | cons a as ih =>
    cases a <;>
      simp [runCreations, nextval, ih, SeqState.mk.injEq] <;> omega

/-- Every assigned number lies in the window the run consumed. -/
theorem runCreations_mem_bound (as : List Attempt) (s : SeqState) :
    ∀ n ∈ (runCreations s as).1, s.next ≤ n ∧ n < s.next + as.length := by
  induction as generalizing s with
  | nil => simp [runCreations]
  | cons a as ih =>
    intro n hn
    cases a with
    | commit =>
      have hn' : n ∈ s.next :: (runCreations ⟨s.next + 1⟩ as).1 := hn
      rcases List.mem_cons.mp hn' with rfl | hmem
      · exact ⟨Nat.le_refl _, by simp only [List.length_cons]; omega⟩
      · have h2 : s.next + 1 ≤ n ∧ n < s.next + 1 + as.length :=
          ih ⟨s.next + 1⟩ n hmem
        simp only [List.length_cons]
        omega
    | rollback =>
      have hn' : n ∈ (runCreations ⟨s.next + 1⟩ as).1 := hn
      have h2 : s.next + 1 ≤ n ∧ n < s.next + 1 + as.length :=
        ih ⟨s.next + 1⟩ n hn'
      simp only [List.length_cons]
      omega

/-- Assigned numbers are strictly increasing in creation order. -/
theorem runCreations_pairwise (as : List Attempt) (s : SeqState) :
    (runCreations s as).1.Pairwise (· < ·) := by
  induction as generalizing s with
  | nil => simp [runCreations]
  | cons a as ih =>
    cases a with
    | commit =>
      show (s.next :: (runCreations ⟨s.next + 1⟩ as).1).Pairwise (· < ·)
      refine List.Pairwise.cons ?_ (ih _)
      intro b hb
      have h2 : s.next + 1 ≤ b ∧ b < s.next + 1 + as.length :=
        runCreations_mem_bound as ⟨s.next + 1⟩ b hb
      omega
    | rollback =>
      show ((runCreations ⟨s.next + 1⟩ as).1).Pairwise (· < ·)
      exact ih _

/-- The k-th number of the consumed window is assigned to an order exactly
when the k-th attempt committed. -/
theorem runCreations_mem_iff (as : List Attempt) (s : SeqState) :
    ∀ k, k < as.length →
      ((s.next + k) ∈ (runCreations s as).1 ↔
        as[k]? = some Attempt.commit) := by
  induction as generalizing s with
  | nil => intro k hk; exact absurd hk (by simp)
  | cons a as ih =>
    intro k hk
    cases k with
    | zero =>
      cases a with
      | commit =>
        show s.next + 0 ∈ s.next :: (runCreations ⟨s.next + 1⟩ as).1 ↔ _
        simp
      | rollback =>
        show s.next + 0 ∈ (runCreations ⟨s.next + 1⟩ as).1 ↔ _
        simp only [List.getElem?_cons_zero]
        constructor
        · intro hmem
          have h2 : s.next + 1 ≤ s.next + 0 ∧
              s.next + 0 < s.next + 1 + as.length :=
            runCreations_mem_bound as ⟨s.next + 1⟩ _ hmem
          omega
        · intro hcontra
          exact absurd hcontra (by simp)
    | succ j =>
      have hj : j < as.length := by
        simpa [Nat.succ_lt_succ_iff] using hk
      have harith : s.next + (j + 1) = s.next + 1 + j := by omega
      have hih := ih ⟨s.next + 1⟩ j hj
      cases a with
      | commit =>
        show s.next + (j + 1) ∈ s.next :: (runCreations ⟨s.next + 1⟩ as).1 ↔ _
        rw [List.mem_cons, List.getElem?_cons_succ, harith, hih]
        constructor
        · rintro (habs | h)
          · omega
          · exact h
        · intro h; exact Or.inr h
      | rollback =>
        show s.next + (j + 1) ∈ (runCreations ⟨s.next + 1⟩ as).1 ↔ _
        rw [List.getElem?_cons_succ, harith, hih]

/-- Claim C1: over any serialized sequence of order-creation attempts drawing
from the shared order_number_seq, the assigned order numbers are strictly
increasing in creation order (hence unique and monotonically
non-decreasing), form a subset of the consecutive window starting at the
counter value, and a number of that window is missing exactly where the
corresponding creation attempt rolled back. -/
theorem orderNumber_unique_monotone_gapfree (s : SeqState)
    (as : List Attempt) :
    (runCreations s as).1.Pairwise (· < ·) ∧
    (∀ n ∈ (runCreations s as).1,
      s.next ≤ n ∧ n < s.next + as.length) ∧
    (∀ k, k < as.length →
      ((s.next + k) ∈ (runCreations s as).1 ↔
        as[k]? = some Attempt.commit)) :=
  ⟨runCreations_pairwise as s, runCreations_mem_bound as s,
    runCreations_mem_iff as s⟩

/-- Closed witness for orderNumber_unique_monotone_gapfree: three attempts
from a counter at 1, the middle one rolled back, leave the number 2
unassigned. -/
theorem orderNumber_unique_monotone_gapfree_witness :
    (runCreations ⟨1⟩
        [Attempt.commit, Attempt.rollback, Attempt.commit]).1.Pairwise
      (· < ·) ∧
    ((1 + 1 ∈ (runCreations ⟨1⟩
        [Attempt.commit, Attempt.rollback, Attempt.commit]).1) ↔
      [Attempt.commit, Attempt.rollback, Attempt.commit][1]? =
        some Attempt.commit) :=
  ⟨(orderNumber_unique_monotone_gapfree ⟨1⟩
      [Attempt.commit, Attempt.rollback, Attempt.commit]).1,
    (orderNumber_unique_monotone_gapfree ⟨1⟩
      [Attempt.commit, Attempt.rollback, Attempt.commit]).2.2 1 (by decide)⟩

/-! ### helper lemmas: the retrofit migration -/

/-- Backfilling rows that all lack a number keeps the row ids in place,
hands out exactly the consecutive window starting at the sequence value,
leaves no row unnumbered, and parks the sequence just past the window. -/
theorem backfillRows_fresh (ids : List Nat) (s : SeqState) :
    (backfillRows (ids.map (fun i => (⟨i, none⟩ : MigRow))) s).1.map
        MigRow.rowId = ids ∧
    (backfillRows (ids.map (fun i => (⟨i, none⟩ : MigRow))) s).1.filterMap
        MigRow.orderNumber = List.range' s.next ids.length ∧
    (∀ r ∈ (backfillRows (ids.map (fun i => (⟨i, none⟩ : MigRow))) s).1,
        r.orderNumber ≠ none) ∧
    (backfillRows (ids.map (fun i => (⟨i, none⟩ : MigRow))) s).2 =
        ⟨s.next + ids.length⟩ := by
  induction ids generalizing s with
  | nil => simp [backfillRows]
  | cons i ids ih =>
    obtain ⟨h1, h2, h3, h4⟩ := ih ⟨s.next + 1⟩
    refine ⟨?_, ?_, ?_, ?_⟩
    · simp [backfillRows, nextval, h1]
    · simp [backfillRows, nextval, h2, List.range'_succ]
    · intro r hr
      rcases List.mem_cons.mp (by simpa [backfillRows, nextval] using hr)
        with rfl | hmem
      · simp
      · exact h3 r hmem
    · simp [backfillRows, nextval, h4, SeqState.mk.injEq]
      omega

/-- Running the migration script on a pre-migration store reduces to the
backfill result with every flag set. -/
theorem runMigration_pre (ids : List Nat) :
    runMigration (preMigrationStore ids) =
      ⟨(backfillRows (ids.map (fun i => ⟨i, none⟩)) ⟨1⟩).1,
        some (backfillRows (ids.map (fun i => ⟨i, none⟩)) ⟨1⟩).2,
        true, true, true, true⟩ := rfl

/-- Claim C8: the retrofit migration backfills every existing order row with a
unique number drawn from order_number_seq (the consecutive window from 1),
does so before the column is made NOT NULL and before the sequence is
attached as the column default (the statement order of the script), and
leaves the sequence past every backfilled number, so the numbers drawn by
any later sequence of inserts through the default never overlap the
backfilled ones. -/
theorem migration_backfill_then_default (ids : List Nat)
    (as : List Attempt) :
    ((runMigration (preMigrationStore ids)).rows.map MigRow.rowId = ids ∧
     (runMigration (preMigrationStore ids)).rows.filterMap
         MigRow.orderNumber = List.range' 1 ids.length ∧
     ((runMigration (preMigrationStore ids)).rows.filterMap
         MigRow.orderNumber).Pairwise (· < ·) ∧
     (∀ r ∈ (runMigration (preMigrationStore ids)).rows,
         r.orderNumber ≠ none) ∧
     (runMigration (preMigrationStore ids)).notNull = true ∧
     (runMigration (preMigrationStore ids)).uniqueIdx = true ∧
     (runMigration (preMigrationStore ids)).defaultIsSeq = true ∧
     (runMigration (preMigrationStore ids)).seq =
       some ⟨1 + ids.length⟩) ∧
    (∀ n ∈ (runMigration (preMigrationStore ids)).rows.filterMap
        MigRow.orderNumber,
      ∀ m ∈ (runCreations ⟨1 + ids.length⟩ as).1, n < m) ∧
    (migrationSteps.indexOf MigStep.backfill <
        migrationSteps.indexOf MigStep.setNotNull ∧
     migrationSteps.indexOf MigStep.backfill <
        migrationSteps.indexOf MigStep.setDefaultSeq) := by
  obtain ⟨h1, h2, h3, h4⟩ := backfillRows_fresh ids ⟨1⟩
  refine ⟨⟨?_, ?_, ?_, ?_, rfl, rfl, rfl, ?_⟩, ?_, by decide⟩
  · rw [runMigration_pre]; exact h1
  · rw [runMigration_pre]; exact h2
  · rw [runMigration_pre]
    rw [h2]
    exact List.pairwise_lt_range' 1 ids.length
  · rw [runMigration_pre]; exact h3
  · rw [runMigration_pre, h4]
  · intro n hn m hm
    rw [runMigration_pre] at hn
    rw [h2] at hn
    have hb : 1 ≤ n ∧ n < 1 + ids.length := List.mem_range'_1.mp hn
    have hc : 1 + ids.length ≤ m ∧ m < 1 + ids.length + as.length :=
      runCreations_mem_bound as ⟨1 + ids.length⟩ m hm
    omega

/-- Closed witness for migration_backfill_then_default: migrating a store
of two rows backfills numbers 1 and 2, and a subsequent default-driven
insert draws 3, above every backfilled number. -/
theorem migration_backfill_then_default_witness :
    1 ∈ (runMigration (preMigrationStore [10, 11])).rows.filterMap
        MigRow.orderNumber ∧
    3 ∈ (runCreations ⟨1 + [10, 11].length⟩ [Attempt.commit]).1 ∧
    1 < 3 :=
  ⟨by decide, by decide,
    (migration_backfill_then_default [10, 11] [Attempt.commit]).2.1 1
      (by decide) 3 (by decide)⟩

/-! ### helper lemmas: the controller -/

/-- A resolver call whose query succeeds always resolves, to anonIdOf. -/
theorem getOrCreate_ok_result (p : ProcState) (t : UsersTable) :
    (getOrCreateAnonymousUserId p t QueryOutcome.ok).result =
      Except.ok (anonIdOf p t) := by
  obtain ⟨c⟩ := p
  cases c <;> rfl

/-- Claim C3 counterexample: a request lacking quote_id, sent by an anonymous
caller against a cold cache and a users table with no anonymous row, is
answered 400 but has already created the anonymous identity row -- a
write, contradicting that no writes whatsoever are performed. -/
theorem createOrder_missing_quote_still_writes_identity :
    (createOrder ⟨⟨none, 5⟩, ⟨none⟩, emptyPricing, ⟨[], ⟨1⟩⟩, 0⟩
        ⟨none, none, 99⟩ ⟨QueryOutcome.ok, none, none, none⟩).1 =
      HttpResult.err 400 ⟨"quote_id is required", none⟩ ∧
    (createOrder ⟨⟨none, 5⟩, ⟨none⟩, emptyPricing, ⟨[], ⟨1⟩⟩, 0⟩
        ⟨none, none, 99⟩ ⟨QueryOutcome.ok, none, none,
          none⟩).2.users.anonRow = some 5 ∧
    ((⟨⟨none, 5⟩, ⟨none⟩, emptyPricing, ⟨[], ⟨1⟩⟩, 0⟩ :
        Env)).users.anonRow = none :=
  ⟨rfl, rfl, rfl⟩

/-- Claim C3 as amended: a createOrder request lacking quote_id fails with 400
InvalidRequest, inserts no order row and leaves the order-number counter
untouched; but because identity resolution runs before the body check, an
anonymous caller changes the users table exactly as one resolver call
does (possibly creating the anonymous identity row), while an
authenticated caller changes nothing. -/
theorem createOrder_missing_quote_no_order_writes
    (env : Env) (req : CreateReq) (f : CreateFailures)
    (hq : req.quote_id = none)
    (hok : req.authUserId.isSome ∨ f.anonOutcome = QueryOutcome.ok) :
    (createOrder env req f).1 =
      HttpResult.err 400 ⟨"quote_id is required", none⟩ ∧
    (createOrder env req f).2.orders.rows = env.orders.rows ∧
    (createOrder env req f).2.orders.seq = env.orders.seq ∧
    (req.authUserId.isSome → (createOrder env req f).2 = env) ∧
    (req.authUserId = none →
      (createOrder env req f).2.users =
        (getOrCreateAnonymousUserId env.proc env.users
          f.anonOutcome).table) := by
  obtain ⟨users, proc, pricing, orders, now⟩ := env
  obtain ⟨rq, ra, rf⟩ := req
  cases hq
  cases ra with
  | some uid =>
    refine ⟨rfl, rfl, rfl, fun _ => rfl, fun hc => ?_⟩
    simp at hc
  | none =>
    rcases hok with hs | hoc
    · exact absurd hs (by simp)
    · obtain ⟨oc, b1, b2, b3⟩ := f
      cases hoc
      obtain ⟨pc⟩ := proc
      cases pc with
      | some i =>
        refine ⟨rfl, rfl, rfl, fun hs => ?_, fun _ => rfl⟩
        simp at hs
      | none =>
        obtain ⟨ar, ni⟩ := users
        cases ar with
        | some x =>
          refine ⟨rfl, rfl, rfl, fun hs => ?_, fun _ => rfl⟩
          simp at hs
        | none =>
          refine ⟨rfl, rfl, rfl, fun hs => ?_, fun _ => rfl⟩
          simp at hs

/-- Closed witness for createOrder_missing_quote_no_order_writes at an
anonymous request with a warm-up-free cache. -/
theorem createOrder_missing_quote_no_order_writes_witness :
    (createOrder ⟨⟨none, 8⟩, ⟨none⟩, pricingWithQ1, ⟨[], ⟨4⟩⟩, 3⟩
        ⟨none, none, 1⟩ ⟨QueryOutcome.ok, none, none, none⟩).1 =
      HttpResult.err 400 ⟨"quote_id is required", none⟩ ∧
    (createOrder ⟨⟨none, 8⟩, ⟨none⟩, pricingWithQ1, ⟨[], ⟨4⟩⟩, 3⟩
        ⟨none, none, 1⟩ ⟨QueryOutcome.ok, none, none, none⟩).2.orders.rows =
      ((⟨⟨none, 8⟩, ⟨none⟩, pricingWithQ1, ⟨[], ⟨4⟩⟩, 3⟩ :
        Env)).orders.rows ∧
    (createOrder ⟨⟨none, 8⟩, ⟨none⟩, pricingWithQ1, ⟨[], ⟨4⟩⟩, 3⟩
        ⟨none, none, 1⟩ ⟨QueryOutcome.ok, none, none, none⟩).2.orders.seq =
      ((⟨⟨none, 8⟩, ⟨none⟩, pricingWithQ1, ⟨[], ⟨4⟩⟩, 3⟩ :
        Env)).orders.seq ∧
    (createOrder ⟨⟨none, 8⟩, ⟨none⟩, pricingWithQ1, ⟨[], ⟨4⟩⟩, 3⟩
        ⟨none, none, 1⟩ ⟨QueryOutcome.ok, none, none, none⟩).2.users =
      (getOrCreateAnonymousUserId ⟨none⟩ ⟨none, 8⟩ QueryOutcome.ok).table :=
  have h := createOrder_missing_quote_no_order_writes
    ⟨⟨none, 8⟩, ⟨none⟩, pricingWithQ1, ⟨[], ⟨4⟩⟩, 3⟩
    ⟨none, none, 1⟩ ⟨QueryOutcome.ok, none, none, none⟩ rfl (Or.inr rfl)
  ⟨h.1, h.2.1, h.2.2.1, h.2.2.2.2 rfl⟩

/-- Claim C4, evaluated at the failing input: the checked-out client is never
handed to orderRepository.create, so the store write autocommits on its
own connection; when COMMIT on the client then fails, the catch block
answers 500 after ROLLBACK, yet the fully committed order row remains in
the store. -/
theorem createOrder_commit_failure_leaves_committed_row :
    (createOrder ⟨⟨some 1, 2⟩, ⟨some 1⟩, pricingWithQ1, ⟨[], ⟨1⟩⟩, 7⟩
        ⟨some "q1", some 1, 42⟩
        ⟨QueryOutcome.ok, none, none, some "connection lost"⟩).1 =
      HttpResult.err 500 ⟨"Failed to create order", some "connection lost"⟩ ∧
    (createOrder ⟨⟨some 1, 2⟩, ⟨some 1⟩, pricingWithQ1, ⟨[], ⟨1⟩⟩, 7⟩
        ⟨some "q1", some 1, 42⟩
        ⟨QueryOutcome.ok, none, none, some "connection lost"⟩).2.orders.rows =
      [⟨42, 1, "q1", "buy", "EUR", "BTC", 100, 2, 50000, 1,
        OrderStatus.QUOTE_LOCKED, 1, none, 7, 7⟩] :=
  ⟨rfl, rfl⟩

/-- Claim C5: an order created from a quote, read back through getOrder by its
owner, returns base, asset, fiat amount, crypto amount, exchange rate and
fee exactly equal to the quote values at creation time, whatever the
pricing collaborator holds at read time (any later mutation or expiry of
the quote is irrelevant: the read never consults it). -/
theorem createOrder_freezes_quote_fields
    (env : Env) (req : CreateReq) (qid : String) (quote : Quote)
    (pricing2 : PricingService)
    (hq : req.quote_id = some qid)
    (hv : env.pricing.validateQuote qid = true)
    (hg : env.pricing.getQuote qid = some quote) :
    ∃ body : GetOrderBody,
      (getOrder
        { (createOrder env req ⟨QueryOutcome.ok, none, none, none⟩).2 with
            pricing := pricing2 }
        ⟨req.freshOrderId, some (resolveIdentityOk env req.authUserId)⟩
        ⟨QueryOutcome.ok, none⟩).1 = HttpResult.ok 200 body ∧
      body.base = quote.base ∧ body.asset = quote.asset ∧
      body.fiat_amount = quote.amount ∧
      body.crypto_amount = quote.cryptoAmount ∧
      body.exchange_rate = quote.exchangeRate ∧ body.fee = quote.fee := by
  obtain ⟨users, proc, pricing, orders, now⟩ := env
  obtain ⟨rq, ra, rfid⟩ := req
  cases hq
  cases ra with
  | some uid =>
    simp only at hv hg
    simp [createOrder, getOrder, resolveIdentityOk, OrderRepo.create,
      OrderRepo.findById, nextval, hv, hg, List.find?]
  | none =>
    obtain ⟨pc⟩ := proc
    cases pc with
    | some i =>
      simp only at hv hg
      simp [createOrder, getOrder, resolveIdentityOk, anonIdOf,
        getOrCreateAnonymousUserId, anonUpsertQuery, OrderRepo.create,
        OrderRepo.findById, nextval, hv, hg, List.find?]
    | none =>
      obtain ⟨ar, ni⟩ := users
      cases ar with
      | some x =>
        simp only at hv hg
        simp [createOrder, getOrder, resolveIdentityOk, anonIdOf,
          getOrCreateAnonymousUserId, anonUpsertQuery, OrderRepo.create,
          OrderRepo.findById, nextval, hv, hg, List.find?]
      | none =>
        simp only at hv hg
        simp [createOrder, getOrder, resolveIdentityOk, anonIdOf,
          getOrCreateAnonymousUserId, anonUpsertQuery, OrderRepo.create,
          OrderRepo.findById, nextval, hv, hg, List.find?]

/-- Closed witness for createOrder_freezes_quote_fields: the EUR-to-BTC
quote q1 round-trips through creation and a read against a pricing state
where every quote has expired and vanished. -/
theorem createOrder_freezes_quote_fields_witness :
    ∃ body : GetOrderBody,
      (getOrder
        { (createOrder ⟨⟨some 1, 2⟩, ⟨some 1⟩, pricingWithQ1, ⟨[], ⟨3⟩⟩, 7⟩
            ⟨some "q1", some 6, 11⟩ ⟨QueryOutcome.ok, none, none, none⟩).2 with
            pricing := emptyPricing }
        ⟨(⟨some "q1", some 6, 11⟩ : CreateReq).freshOrderId,
          some (resolveIdentityOk
            ⟨⟨some 1, 2⟩, ⟨some 1⟩, pricingWithQ1, ⟨[], ⟨3⟩⟩, 7⟩
            (⟨some "q1", some 6, 11⟩ : CreateReq).authUserId)⟩
        ⟨QueryOutcome.ok, none⟩).1 = HttpResult.ok 200 body ∧
      body.base = quoteEUR.base ∧ body.asset = quoteEUR.asset ∧
      body.fiat_amount = quoteEUR.amount ∧
      body.crypto_amount = quoteEUR.cryptoAmount ∧
      body.exchange_rate = quoteEUR.exchangeRate ∧
      body.fee = quoteEUR.fee :=
  createOrder_freezes_quote_fields
    ⟨⟨some 1, 2⟩, ⟨some 1⟩, pricingWithQ1, ⟨[], ⟨3⟩⟩, 7⟩
    ⟨some "q1", some 6, 11⟩ "q1" quoteEUR emptyPricing rfl rfl rfl

/-- Claim C7: getOrder resolves the caller identity (authenticated id when
present, else the anonymous resolver), answers 404 Not Found when no
order has the requested id, and 403 Access Denied when the order exists
but its userId differs from the resolved identity -- the ownership check
runs on every read, anonymous callers included. -/
theorem getOrder_notfound_and_ownership
    (env : Env) (req : GetReq) (f : ReadFailures)
    (hf : f.findFails = none)
    (hok : req.authUserId.isSome ∨ f.anonOutcome = QueryOutcome.ok) :
    (env.orders.findById req.orderId = none →
      (getOrder env req f).1 =
        HttpResult.err 404 ⟨"Order not found", none⟩) ∧
    (∀ o, env.orders.findById req.orderId = some o →
      o.userId ≠ resolveIdentityOk env req.authUserId →
      (getOrder env req f).1 =
        HttpResult.err 403 ⟨"Access denied", none⟩) := by
  obtain ⟨users, proc, pricing, orders, now⟩ := env
  obtain ⟨oid, ra⟩ := req
  obtain ⟨oc, ff⟩ := f
  cases hf
  cases ra with
  | some uid =>
    constructor
    · intro h
      simp only at h
      simp [getOrder, resolveIdentityOk, h]
    · intro o ho hne
      simp only at ho
      simp only [resolveIdentityOk] at hne
      simp [getOrder, resolveIdentityOk, ho, hne]
  | none =>
    rcases hok with hs | hoc
    · exact absurd hs (by simp)
    · cases hoc
      obtain ⟨pc⟩ := proc
      cases pc with
      | some i =>
        constructor
        · intro h
          simp only at h
          simp [getOrder, getOrCreateAnonymousUserId, anonUpsertQuery,
            resolveIdentityOk, anonIdOf, h]
        · intro o ho hne
          simp only at ho
          simp only [resolveIdentityOk, anonIdOf] at hne
          simp [getOrder, getOrCreateAnonymousUserId, anonUpsertQuery,
            ho, hne]
      | none =>
        obtain ⟨ar, ni⟩ := users
        cases ar with
        | some x =>
          constructor
          · intro h
            simp only at h
            simp [getOrder, getOrCreateAnonymousUserId, anonUpsertQuery,
              resolveIdentityOk, anonIdOf, h]
          · intro o ho hne
            simp only at ho
            simp only [resolveIdentityOk, anonIdOf, anonUpsertQuery] at hne
            simp [getOrder, getOrCreateAnonymousUserId, anonUpsertQuery,
              ho, hne]
        | none =>
          constructor
          · intro h
            simp only at h
            simp [getOrder, getOrCreateAnonymousUserId, anonUpsertQuery,
              resolveIdentityOk, anonIdOf, h]
          · intro o ho hne
            simp only at ho
            simp only [resolveIdentityOk, anonIdOf, anonUpsertQuery] at hne
            simp [getOrder, getOrCreateAnonymousUserId, anonUpsertQuery,
              ho, hne]

/-- Closed witness for getOrder_notfound_and_ownership: against a store
holding only sampleOrder (owned by user 1), an authenticated caller 2
gets 404 for an absent id and 403 for sampleOrder. -/
theorem getOrder_notfound_and_ownership_witness :
    (getOrder ⟨⟨some 1, 2⟩, ⟨some 1⟩, emptyPricing, ⟨[sampleOrder], ⟨5⟩⟩, 0⟩
        ⟨77, some 2⟩ ⟨QueryOutcome.ok, none⟩).1 =
      HttpResult.err 404 ⟨"Order not found", none⟩ ∧
    (getOrder ⟨⟨some 1, 2⟩, ⟨some 1⟩, emptyPricing, ⟨[sampleOrder], ⟨5⟩⟩, 0⟩
        ⟨42, some 2⟩ ⟨QueryOutcome.ok, none⟩).1 =
      HttpResult.err 403 ⟨"Access denied", none⟩ :=
  ⟨(getOrder_notfound_and_ownership
      ⟨⟨some 1, 2⟩, ⟨some 1⟩, emptyPricing, ⟨[sampleOrder], ⟨5⟩⟩, 0⟩
      ⟨77, some 2⟩ ⟨QueryOutcome.ok, none⟩ rfl (Or.inl rfl)).1 (by decide),
    (getOrder_notfound_and_ownership
      ⟨⟨some 1, 2⟩, ⟨some 1⟩, emptyPricing, ⟨[sampleOrder], ⟨5⟩⟩, 0⟩
      ⟨42, some 2⟩ ⟨QueryOutcome.ok, none⟩ rfl (Or.inl rfl)).2 sampleOrder
      (by decide) (by decide)⟩

/-- Claim C9 counterexample: a store failure during createOrder is answered
with a 500 body that carries the raw storage error message verbatim --
the controller consults no development-mode flag -- whereas the server
middleware, the only dev-guarded path, omits the message when the flag is
off. -/
theorem createOrder_includes_raw_error_message :
    (createOrder ⟨⟨some 1, 2⟩, ⟨some 1⟩, pricingWithQ1, ⟨[], ⟨1⟩⟩, 0⟩
        ⟨some "q1", some 1, 9⟩
        ⟨QueryOutcome.ok, none, some "secret storage detail", none⟩).1 =
      HttpResult.err 500
        ⟨"Failed to create order", some "secret storage detail"⟩ ∧
    (errorMiddleware false "secret storage detail").2.message = none :=
  ⟨rfl, rfl⟩

/-- Claim C9 as amended: every error response of createOrder, getOrder and
getUserOrders is a structured body whose error field is one of the fixed
literal safe strings (never interpolated from collaborator or storage
data) and which carries no stack trace; but the raw error message is
included in the controller 500 bodies unconditionally, and only the
server middleware gates the message behind the development flag. -/
theorem error_responses_structured_and_safe :
    (∀ env req f s b, (createOrder env req f).1 = HttpResult.err s b →
        b.error ∈ safeErrorStrings) ∧
    (∀ env req f s b, (getOrder env req f).1 = HttpResult.err s b →
        b.error ∈ safeErrorStrings) ∧
    (∀ env req f s b, (getUserOrders env req f).1 = HttpResult.err s b →
        b.error ∈ safeErrorStrings) ∧
    (∀ dev m, (errorMiddleware dev m).2.error ∈ safeErrorStrings ∧
      (errorMiddleware dev m).2.message =
        if dev then some m else none) := by
  refine ⟨?_, ?_, ?_, ?_⟩
  · intro env req f s b h
    unfold createOrder at h
    repeat' ((try dsimp only at h); split at h)
    all_goals (try dsimp only at h)
    all_goals
      first
        | exact HttpResult.noConfusion h
        | (injection h with h1 h2; subst h2; simp [safeErrorStrings])
  · intro env req f s b h
    unfold getOrder at h
    repeat' ((try dsimp only at h); split at h)
    all_goals (try dsimp only at h)
    all_goals
      first
        | exact HttpResult.noConfusion h
        | (injection h with h1 h2; subst h2; simp [safeErrorStrings])
  · intro env req f s b h
    unfold getUserOrders at h
    repeat' ((try dsimp only at h); split at h)
    all_goals (try dsimp only at h)
    all_goals
      first
        | exact HttpResult.noConfusion h
        | (injection h with h1 h2; subst h2; simp [safeErrorStrings])
  · intro dev m
    refine ⟨?_, rfl⟩
    simp [errorMiddleware, safeErrorStrings]

/-- Closed witness for error_responses_structured_and_safe: the 410 body
of an expired-quote createOrder uses a safe literal error string. -/
theorem error_responses_structured_and_safe_witness :
    ((⟨"Quote has expired or is invalid", none⟩ : ErrorBody)).error ∈
      safeErrorStrings :=
  error_responses_structured_and_safe.1
    ⟨⟨some 1, 2⟩, ⟨some 1⟩, emptyPricing, ⟨[], ⟨1⟩⟩, 0⟩
    ⟨some "qx", some 1, 3⟩ ⟨QueryOutcome.ok, none, none, none⟩ 410
    ⟨"Quote has expired or is invalid", none⟩ rfl

end Exury
